import Mathlib

/-!
Shallow embedding of the diesel-custom-type crate (src/lib.rs).

The crate declares one trait, CustomSqlType, describing a bidirectional
conversion between a custom Rust type and a primitive raw type, and one
macro, register_custom_type!, that generates the diesel trait
implementations (ToSql, FromSql, FromSqlRow, AsExpression for owned and
borrowed values, Queryable) for a type implementing that trait.

The generated implementations are parametric over the diesel backend; the
backend pieces they delegate to (the raw type's own to_sql/from_sql, the
row abstraction) are therefore passed as explicit function arguments here.
Boxed thread-safe errors are modelled as strings; a Rust panic is modelled
explicitly by the PanicOr type, so that code that can abort instead of
returning is visibly distinguished from code that returns a Result.
-/

namespace DieselCustomType

/-- Boxed thread-safe error (Box of Error + Send + Sync), modelled by its
message. -/
abbrev DbError := String

/-- Diesel SQL column-type tags (the `DataBaseType` associated type of the
trait); only the tags used in this crate's documentation are listed. -/
inductive DieselSqlType where
  | smallInt
  | integer
  | text
  deriving DecidableEq

/-- The CustomSqlType trait of src/lib.rs: an associated diesel column type
tag, a conversion into the raw type, and a fallible conversion back. -/
structure CustomSqlType (Target RawType : Type) where
  dataBaseType : DieselSqlType
  to_database_type : Target → RawType
  from_database_type : RawType → Except DbError Target

/-- Outcome of running Rust code that may abort: either a returned value or
a panic carrying the panic message. -/
inductive PanicOr (α : Type) where
  | value : α → PanicOr α
  | panics : String → PanicOr α
  deriving DecidableEq

/-- Result::expect — returns the Ok payload, panics with the given message
on Err. -/
def expect (r : Except DbError α) (msg : String) : PanicOr α :=
  match r with
  | .ok a => .value a
  | .error _ => .panics msg

/-- Generated ToSql::to_sql: converts with the user's to_database_type and
delegates to the raw type's own to_sql (passed in as raw_to_sql, writing
into an output buffer of abstract type Output). -/
def to_sql (impl : CustomSqlType T R) (raw_to_sql : R → Output → Except DbError Output)
    (v : T) (out : Output) : Except DbError Output :=
  raw_to_sql (impl.to_database_type v) out

/-- Generated FromSql::from_sql: runs the raw type's from_sql on the
optional raw column value; on Ok applies the user's from_database_type, on
Err returns the raw error unchanged. -/
def from_sql (impl : CustomSqlType T R) (raw_from_sql : Option RawValue → Except DbError R)
    (bytes : Option RawValue) : Except DbError T :=
  match raw_from_sql bytes with
  | .ok a => impl.from_database_type a
  | .error e => .error e

/-- A database row, as seen through diesel's Row abstraction: a sequence of
optional raw column values consumed left to right. -/
structure Row (RawValue : Type) where
  cols : List (Option RawValue)
  deriving DecidableEq

/-- Row::take — removes and returns the next column value (None when the
row is exhausted, mirroring a NULL column). -/
def Row.take (row : Row RawValue) : Option RawValue × Row RawValue :=
  match row.cols with
  | [] => (none, ⟨[]⟩)
  | c :: rest => (c, ⟨rest⟩)

/-- Generated FromSqlRow::build_from_row: takes the next value from the row
and feeds it to the generated from_sql; returns the result together with
the advanced row. -/
def build_from_row (impl : CustomSqlType T R)
    (raw_from_sql : Option RawValue → Except DbError R)
    (row : Row RawValue) : Except DbError T × Row RawValue :=
  match row.take with
  | (bytes, row') => (from_sql impl raw_from_sql bytes, row')

/-- A Bound query expression: the SQL type tag it is bound under and the
payload stored by Bound::new. References are modelled by the value they
point to. -/
structure Bound (Target : Type) where
  tpe : DieselSqlType
  item : Target
  deriving DecidableEq

/-- Generated AsExpression for the owned type: wraps the value itself in
Bound::new under the DataBaseType tag; no conversion happens at binding
time. -/
def as_expression (impl : CustomSqlType T R) (v : T) : Bound T :=
  ⟨impl.dataBaseType, v⟩

/-- Generated AsExpression for the borrowed type (a reference to the
value): wraps the reference in Bound::new under the DataBaseType tag; the
reference is modelled by the value it points to. -/
def as_expression_ref (impl : CustomSqlType T R) (v : T) : Bound T :=
  ⟨impl.dataBaseType, v⟩

/-- Generated Queryable::build: applies the user's from_database_type to
the raw row value and calls expect on the result, so a conversion error
aborts with the message below instead of being returned. -/
def queryable_build (impl : CustomSqlType T R) (row : R) : PanicOr T :=
  expect (impl.from_database_type row) "FIXME: We can't fail here"

/-- Write-then-read through the generated extension points: to_sql into an
output buffer, then from_sql on the stored raw column value extracted from
that buffer by the backend (store). A write error is returned as is. -/
def write_then_read (impl : CustomSqlType T R)
    (raw_to_sql : R → Output → Except DbError Output)
    (raw_from_sql : Option RawValue → Except DbError R)
    (store : Output → Option RawValue) (v : T) (out : Output) : Except DbError T :=
  match to_sql impl raw_to_sql v out with
  | .ok out' => from_sql impl raw_from_sql (store out')
  | .error e => .error e

/-- Spec-side definition for the refinement claim: calling the user's two
conversion functions directly, with no storage layer in between. -/
def direct_roundtrip (impl : CustomSqlType T R) (v : T) : Except DbError T :=
  impl.from_database_type (impl.to_database_type v)

/-- Whether an Except value is an error. -/
def exceptIsError : Except DbError α → Bool
  | .ok _ => false
  | .error _ => true

/-- The Color enum of the crate's documentation example. -/
inductive Color where
  | Red
  | Green
  | Blue
  deriving DecidableEq

/-- Color::to_database_type of the documentation example: the enum
discriminant as an i16 (modelled as Int; the values fit in i16). -/
def Color.to_database_type (c : Color) : Int :=
  match c with
  | .Red => 1
  | .Green => 2
  | .Blue => 3

/-- Color::from_database_type of the documentation example: 1, 2, 3 map to
the three colors, and every other input panics with a formatted message —
the example body aborts instead of returning its Result error case. -/
def Color.from_database_type (v : Int) : PanicOr (Except DbError Color) :=
  if v = 1 then .value (.ok .Red)
  else if v = 2 then .value (.ok .Green)
  else if v = 3 then .value (.ok .Blue)
  else .panics ("Unknown value " ++ toString v ++ " for Color found")

/-- A minimal conversion-contract instance used to evaluate the generated
code at concrete inputs: Bool stored as a SmallInt, 1 for true and 0 for
false, every other raw value rejected with an error (as the contract
demands). -/
def boolImpl : CustomSqlType Bool Int where
  dataBaseType := .smallInt
  to_database_type := fun b => if b then 1 else 0
  from_database_type := fun r =>
    if r = 1 then .ok true
    else if r = 0 then .ok false
    else .error "unknown value"

/-- A single-cell backend for concrete evaluation: the output buffer is the
stored column cell itself. -/
def testRawToSql (r : Int) (_out : Option Int) : Except DbError (Option Int) :=
  .ok (some r)

/-- The matching raw from_sql: reads the cell, errors on NULL. -/
def testRawFromSql : Option Int → Except DbError Int
  | some r => .ok r
  | none => .error "unexpected null"

/-- The matching store map: the buffer already is the stored cell. -/
def testStore : Option Int → Option Int := id

/-- C1: the claim says every generated path, the Queryable row-construction
path included, propagates a from_database_type error to the caller as a
recoverable result and never aborts. The generated Queryable::build (lines
159-168 of src/lib.rs) instead calls expect on the conversion result: at
raw row value 5, from_database_type returns an error, yet build panics
with the expect message instead of returning the error. -/
theorem queryable_build_aborts_on_conversion_error :
    boolImpl.from_database_type 5 = .error "unknown value"
    ∧ queryable_build boolImpl 5 = .panics "FIXME: We can't fail here" := by
  constructor <;> rfl

/-- C2: the generated write path equals the user's to_database_type
followed by the raw type's to_sql; the generated read path equals the raw
type's from_sql followed (on success) by the user's from_database_type;
hence, over a backend that faithfully stores what the raw to_sql wrote, a
write followed by a read through the generated extension points equals
calling the user's two conversion functions directly. -/
theorem generated_paths_equal_direct_conversions
    (impl : CustomSqlType T R)
    (raw_to_sql : R → Output → Except DbError Output)
    (raw_from_sql : Option RawValue → Except DbError R)
    (store : Output → Option RawValue) (v : T) (out : Output) (out' : Output)
    (hfaithful : ∀ r o o', raw_to_sql r o = .ok o' → raw_from_sql (store o') = .ok r)
    (hwrite : raw_to_sql (impl.to_database_type v) out = .ok out') :
    (∀ (w : T) (o : Output), to_sql impl raw_to_sql w o = raw_to_sql (impl.to_database_type w) o)
    ∧ (∀ bytes, from_sql impl raw_from_sql bytes
        = (raw_from_sql bytes).bind impl.from_database_type)
    ∧ write_then_read impl raw_to_sql raw_from_sql store v out = direct_roundtrip impl v := by
  refine ⟨fun w o => rfl, fun bytes => ?_, ?_⟩
  · unfold from_sql
    cases raw_from_sql bytes <;> rfl
  · unfold write_then_read to_sql
    rw [hwrite]
    show from_sql impl raw_from_sql (store out') = direct_roundtrip impl v
    unfold from_sql
    rw [hfaithful _ _ _ hwrite]
    rfl

/-- Witness for C2 at a concrete instance: Bool stored through the
single-cell backend, written and read back at value true. -/
theorem generated_paths_equal_direct_conversions_witness :
    write_then_read boolImpl testRawToSql testRawFromSql testStore true (none : Option Int)
      = direct_roundtrip boolImpl true :=
  (generated_paths_equal_direct_conversions boolImpl testRawToSql testRawFromSql testStore
    true none (some 1)
    (fun r o o' h => by
      unfold testRawToSql at h
      cases h
      rfl)
    rfl).2.2

/-- C3: the claim says from_database_type returns a boxed error, and never
panics, on every raw input with no corresponding custom value. The
documentation example Color::from_database_type (lines 32-39 of
src/lib.rs) instead panics on such inputs: at raw value 4 it aborts with a
formatted message rather than returning its Result error case. -/
theorem color_from_database_type_aborts_on_invalid :
    Color.from_database_type 4 = .panics "Unknown value 4 for Color found" := by
  rfl

/-- C4: round-trip law for the repository's only conversion-contract
implementation, the documentation example Color: reconstructing from the
primitive representation of any Color value returns Ok of that value. -/
theorem color_roundtrip (c : Color) :
    Color.from_database_type (Color.to_database_type c) = .value (.ok c) := by
  cases c <;> rfl

/-- C5: for equal underlying values, the owned and the borrowed generated
AsExpression implementations produce equal Bound expressions: the same SQL
type tag, the same stored payload, and hence the same database value bound
at serialization time. -/
theorem as_expression_owned_ref_equivalent (impl : CustomSqlType T R)
    (v₁ v₂ : T) (h : v₁ = v₂) :
    as_expression impl v₁ = as_expression_ref impl v₂
    ∧ (as_expression impl v₁).tpe = (as_expression_ref impl v₂).tpe
    ∧ impl.to_database_type (as_expression impl v₁).item
        = impl.to_database_type (as_expression_ref impl v₂).item := by
  subst h
  exact ⟨rfl, rfl, rfl⟩

/-- Witness for C5 at a concrete instance: Bool bound owned and borrowed
at the value true. -/
theorem as_expression_owned_ref_equivalent_witness :
    as_expression boolImpl true = as_expression_ref boolImpl true
    ∧ (as_expression boolImpl true).tpe = (as_expression_ref boolImpl true).tpe
    ∧ boolImpl.to_database_type (as_expression boolImpl true).item
        = boolImpl.to_database_type (as_expression_ref boolImpl true).item :=
  as_expression_owned_ref_equivalent boolImpl true true rfl

/-- C6: the generated FromSqlRow::build_from_row returns exactly the
generated FromSql::from_sql applied to the value taken from the row — the
same success value and the same error, with the row advanced by the take. -/
theorem build_from_row_eq_from_sql_of_take (impl : CustomSqlType T R)
    (raw_from_sql : Option RawValue → Except DbError R) (row : Row RawValue) :
    build_from_row impl raw_from_sql row
      = (from_sql impl raw_from_sql row.take.1, row.take.2) := by
  rfl

/-- C7: determinism of both conversion directions — for the documentation
example Color and for every conversion-contract instance, equal inputs
produce equal outputs; both directions are embedded as total functions of
their input alone, with no other state to affect. -/
theorem conversions_deterministic (impl : CustomSqlType T R)
    (x₁ x₂ : T) (c₁ c₂ : Color) (r₁ r₂ : Int)
    (hx : x₁ = x₂) (hc : c₁ = c₂) (hr : r₁ = r₂) :
    impl.to_database_type x₁ = impl.to_database_type x₂
    ∧ Color.to_database_type c₁ = Color.to_database_type c₂
    ∧ Color.from_database_type r₁ = Color.from_database_type r₂ := by
  subst hx; subst hc; subst hr
  exact ⟨rfl, rfl, rfl⟩

/-- Witness for C7 at concrete inputs. -/
theorem conversions_deterministic_witness :
    boolImpl.to_database_type true = boolImpl.to_database_type true
    ∧ Color.to_database_type .Red = Color.to_database_type .Red
    ∧ Color.from_database_type 2 = Color.from_database_type 2 :=
  conversions_deterministic boolImpl true true .Red .Red 2 2 rfl rfl rfl

/-- C8: the generated Queryable::build is partial — when
from_database_type returns Ok v it returns v, and when from_database_type
returns an error it panics through expect with the fixed message instead
of returning. -/
theorem queryable_build_partial_behaviour (impl : CustomSqlType T R) (r : R) :
    (∀ v, impl.from_database_type r = .ok v → queryable_build impl r = .value v)
    ∧ (∀ e, impl.from_database_type r = .error e
        → queryable_build impl r = .panics "FIXME: We can't fail here") := by
  constructor
  · intro v h
    unfold queryable_build expect
    rw [h]
  · intro e h
    unfold queryable_build expect
    rw [h]

/-- Witness for C8 at concrete inputs: raw value 1 converts to true and is
returned; raw value 5 fails to convert and build panics. -/
theorem queryable_build_partial_behaviour_witness :
    queryable_build boolImpl 1 = .value true
    ∧ queryable_build boolImpl 5 = .panics "FIXME: We can't fail here" :=
  ⟨(queryable_build_partial_behaviour boolImpl 1).1 true rfl,
   (queryable_build_partial_behaviour boolImpl 5).2 "unknown value" rfl⟩

/-- C9: in the generated from_sql, the user conversion runs only after a
successful raw read — when the raw read fails, the raw error is returned
directly and the result does not depend on the conversion function at all;
and from_sql errors exactly when the raw read fails or the conversion of
the successfully read raw value fails. -/
theorem from_sql_raw_read_gates_conversion (impl : CustomSqlType T R)
    (raw_from_sql : Option RawValue → Except DbError R) (bytes : Option RawValue) :
    (exceptIsError (from_sql impl raw_from_sql bytes) = true
      ↔ exceptIsError (raw_from_sql bytes) = true
        ∨ ∃ a, raw_from_sql bytes = .ok a
            ∧ exceptIsError (impl.from_database_type a) = true)
    ∧ (∀ e, raw_from_sql bytes = .error e
        → ∀ conv : R → Except DbError T,
            from_sql ⟨impl.dataBaseType, impl.to_database_type, conv⟩ raw_from_sql bytes
              = .error e) := by
  constructor
  · unfold from_sql
    cases hraw : raw_from_sql bytes with
    | ok a =>
        constructor
        · intro h
          exact Or.inr ⟨a, rfl, h⟩
        · rintro (h | ⟨b, hb, h⟩)
          · simp [exceptIsError] at h
          · injection hb with hab
            subst hab
            exact h
    | error e =>
        constructor
        · intro _
          exact Or.inl rfl
        · intro _
          rfl
  · intro e h conv
    unfold from_sql
    rw [h]

/-- Witness for C9 at a concrete input: on a NULL cell the raw read fails
and from_sql returns that raw error regardless of the conversion used. -/
theorem from_sql_raw_read_gates_conversion_witness :
    from_sql ⟨boolImpl.dataBaseType, boolImpl.to_database_type, boolImpl.from_database_type⟩
        testRawFromSql (none : Option Int)
      = .error "unexpected null" :=
  (from_sql_raw_read_gates_conversion boolImpl testRawFromSql none).2
    "unexpected null" rfl boolImpl.from_database_type

/-- C10: both generated AsExpression implementations store the input
unchanged inside the returned Bound expression — no conversion is applied
at binding time. -/
theorem as_expression_payload_unchanged (impl : CustomSqlType T R) (v : T) :
    (as_expression impl v).item = v ∧ (as_expression_ref impl v).item = v :=
  ⟨rfl, rfl⟩

end DieselCustomType
